import Mathlib

/-!
Shallow embedding of `GetOrderBookStrategy`
(src/hummingbot/strategy/dev_1_get_order_book/dev_1_get_order_book.py).

The strategy keeps two mutable attributes, `_ready : bool` and
`_get_order_book_task : Optional[Task]`.  We model the task handle by a
`Option Nat` (the `Nat` standing for the handle identity returned by
`safe_ensure_future`).  Side effects (logging, user notification, task
creation, task cancellation) are recorded as an event trace.
-/

namespace GetOrderBook

/-- The mutable strategy-instance attributes: `_ready` and
`_get_order_book_task`. -/
structure GobState where
  ready : Bool
  task : Option Nat
deriving DecidableEq, Repr

/-- Constructor state: `self._ready = False`, `self._get_order_book_task = None`. -/
def initialState : GobState := ⟨false, none⟩

/-- Observable side effects of `tick` and `stop`. -/
inductive TickEvent where
  /-- `self.logger().warning(f"{name} is not ready. Please wait...")` -/
  | logWarning
  /-- `self.notify_hb_app(f"{name.upper()} Connector is ready!")` -/
  | notifyReady
  /-- `safe_ensure_future(self.show_order_book())` succeeded. -/
  | launched
  /-- `self.logger().error("Error starting live order book. ", exc_info=True)` -/
  | logError
  /-- `self._get_order_book_task.cancel()` on handle `h`. -/
  | cancel (h : Nat)
deriving DecidableEq, Repr

instance : BEq TickEvent := instBEqOfDecidableEq

/--
`tick(timestamp)` from the source.  `exchReady` is the value observed for
`self._exchange.ready`; `launch` is the outcome of
`safe_ensure_future(self.show_order_book())` (`Except.ok h` returns a task
handle; `Except.error` models the call raising).  In the source, if the call
raises, the assignment to `self._get_order_book_task` never happens and the
`except` clause sets `self._ready = False`. -/
def tick (s : GobState) (exchReady : Bool) (launch : Except Unit Nat) :
    GobState × List TickEvent :=
  if s.ready then (s, [])
  else if !exchReady then (s, [.logWarning])
  else if s.task = none then
    match launch with
    | .ok h => (⟨true, some h⟩, [.notifyReady, .launched])
    | .error _ => (⟨false, none⟩, [.notifyReady, .logError])
  else (s, [.notifyReady])

/-- `stop(clock)` from the source: if a task handle is registered, cancel it
and clear the handle; otherwise do nothing. -/
def stop (s : GobState) : GobState × List TickEvent :=
  match s.task with
  | some h => (⟨s.ready, none⟩, [.cancel h])
  | none => (s, [])

/-- A sequence of `tick` invocations.  Each element of `inputs` supplies the
connector readiness observed by that tick and the outcome task creation
would have. -/
def runTicks (s : GobState) : List (Bool × Except Unit Nat) → GobState × List TickEvent
  | [] => (s, [])
  | (e, l) :: rest =>
    let step := tick s e l
    let next := runTicks step.1 rest
    (next.1, step.2 ++ next.2)

/-- Once `_ready` is true, every tick returns immediately with no effect. -/
theorem runTicks_of_ready (s : GobState) (hs : s.ready = true) :
    ∀ inputs, runTicks s inputs = (s, []) := by
  intro inputs
  induction inputs with
  | nil => rfl
  | cons x rest ih =>
    obtain ⟨e, l⟩ := x
    simp [runTicks, tick, hs, ih]

/-- A not-ready tick observing a not-ready connector only logs a warning. -/
theorem tick_not_ready (s : GobState) (hs : s.ready = false) (l : Except Unit Nat) :
    tick s false l = (s, [.logWarning]) := by
  simp [tick, hs]

/-- A not-ready tick with no registered task, observing a ready connector and
a successful task creation, records the handle and sets `_ready`. -/
theorem tick_launch_ok (s : GobState) (hs : s.ready = false) (ht : s.task = none)
    (h : Nat) :
    tick s true (.ok h) = (⟨true, some h⟩, [.notifyReady, .launched]) := by
  simp [tick, hs, ht]

/-! ### The live refresh loop (`show_order_book`)

`show_order_book` first checks that the trading pair is among the keys of
`self._exchange.order_books`; if not, it logs an error and raises a
`ValueError` before any display-surface operation.  Otherwise it awaits
`main_app.stop_live_update()`, sets `main_app.app.live_updates = True`, and
loops: while `main_app.app.live_updates` is observed true at the top of an
iteration it performs one paced display call
(`cls_display_delay(self.get_order_book() + ..., 0.5)`); once a check
observes false it exits and notifies "Stopped live orderbook display
update.".  We model the successive observations of `live_updates` at the top
of the loop by a list of booleans; an exhausted list means the loop is
still running. -/

/-- Observable side effects of `show_order_book`. -/
inductive LoopEvent where
  /-- `self.logger().error(f"Invalid market {pair} on {name} connector.")` -/
  | logInvalidMarket
  /-- `await main_app.stop_live_update()` -/
  | stopLiveUpdate
  /-- `main_app.app.live_updates = True` -/
  | setLiveUpdatesTrue
  /-- one render cycle: `await main_app.cls_display_delay(self.get_order_book() + ..., 0.5)` -/
  | display
  /-- `self.notify_hb_app("Stopped live orderbook display update.")` -/
  | notifyStopped
deriving DecidableEq, Repr

instance : BEq LoopEvent := instBEqOfDecidableEq

/-- How an invocation of `show_order_book` ends, given the modelled flag
observations: it raised `ValueError`, it returned normally, or the list of
observations ran out before a false one (the loop is still iterating). -/
inductive LoopOutcome where
  | raised
  | returned
  | running
deriving DecidableEq, Repr

/-- The `while main_app.app.live_updates:` loop followed by the stop notice:
each observation of the flag that is `true` yields one paced display call;
the first `false` observation exits the loop and emits the notice. -/
def renderLoop : List Bool → List LoopEvent × LoopOutcome
  | [] => ([], .running)
  | b :: rest =>
    if b then
      let next := renderLoop rest
      (.display :: next.1, next.2)
    else ([.notifyStopped], .returned)

/-- `show_order_book` from the source.  `books` is the key set of
`self._exchange.order_books`; `pair` is `self._trading_pair`; `flags` are
the successive values observed for `main_app.app.live_updates`. -/
def show_order_book (books : List String) (pair : String) (flags : List Bool) :
    List LoopEvent × LoopOutcome :=
  if pair ∉ books then
    ([.logInvalidMarket], .raised)
  else
    let next := renderLoop flags
    (.stopLiveUpdate :: .setLiveUpdatesTrue :: next.1, next.2)

/-- `renderLoop` on `k` true observations followed by a false one: `k`
display calls, then the stop notice, then normal return. -/
theorem renderLoop_replicate (k : Nat) (rest : List Bool) :
    renderLoop (List.replicate k true ++ false :: rest) =
      (List.replicate k .display ++ [.notifyStopped], .returned) := by
  induction k with
  | zero => rfl
  | succ n ih => simp [List.replicate_succ, renderLoop, ih]

/-! ### Order book rendering (`get_order_book`)

`get_order_book` reads `order_book.snapshot`, a pair of data frames (bids,
asks) with `price` and `amount` columns, takes the head `self._lines` rows
of each side, renames the columns for display, concatenates the two sides
side by side (`pd.concat(..., axis=1)`, an outer join on the row index, so a
missing side of a row is filled with NaN), renders the joined frame to text,
indents each line by four spaces, and prepends a header line
`f"  market: {self._exchange.name} {self._trading_pair}\n"`.  Prices and
amounts are modelled by rationals; the fixed-width column alignment of
`DataFrame.to_string` is abstracted to single-space separation (the claims
concern row content, not column widths). -/

/-- One `(price, amount)` row of a side of the snapshot. -/
structure PriceLevel where
  price : ℚ
  amount : ℚ
deriving DecidableEq, Repr

/-- `order_book.snapshot`: bids data frame and asks data frame. -/
structure OrderBookSnapshot where
  bids : List PriceLevel
  asks : List PriceLevel
deriving DecidableEq, Repr

/-- The immutable strategy configuration fields used by rendering:
`self._exchange.name`, `self._trading_pair`, `self._lines`. -/
structure GobConfig where
  exchange_name : String
  trading_pair : String
  lines : Nat
deriving DecidableEq, Repr

/-- `pd.concat([bids, asks], axis=1)`: rows are aligned on the index, and a
row index present on only one side leaves the cells of the other side missing
(NaN). -/
def concatCols (bids asks : List PriceLevel) :
    List (Option PriceLevel × Option PriceLevel) :=
  (List.range (max bids.length asks.length)).map (fun i => (bids[i]?, asks[i]?))

/-- The data rows of the joined table built by `get_order_book`: head
`lines` of each side, concatenated side by side. -/
def joinedRows (cfg : GobConfig) (snap : OrderBookSnapshot) :
    List (Option PriceLevel × Option PriceLevel) :=
  concatCols (snap.bids.take cfg.lines) (snap.asks.take cfg.lines)

/-- Render one cell of the joined table (`NaN` for a missing side). -/
def renderCell (c : Option ℚ) : String :=
  match c with
  | some q => toString q
  | none => "NaN"

/-- Render one data row of the joined table. -/
def renderRow (r : Option PriceLevel × Option PriceLevel) : String :=
  renderCell (r.1.map PriceLevel.price) ++ " " ++
    renderCell (r.1.map PriceLevel.amount) ++ " " ++
    renderCell (r.2.map PriceLevel.price) ++ " " ++
    renderCell (r.2.map PriceLevel.amount)

/-- The column-header row produced by the `rename` calls: the bid columns
become `bid_price`/`bid_volume`, the ask columns `ask_price`/`ask_volume`. -/
def tableHeaderRow : String := "bid_price bid_volume ask_price ask_volume"

/-- `joined_df.to_string(index=False)`: the column-header row followed by the
data rows, newline separated. -/
def tableToString (rows : List (Option PriceLevel × Option PriceLevel)) : String :=
  String.intercalate "\n" (tableHeaderRow :: rows.map renderRow)

/-- `header = f"  market: {self._exchange.name} {self._trading_pair}\n"`. -/
def gobHeader (cfg : GobConfig) : String :=
  "  market: " ++ cfg.exchange_name ++ " " ++ cfg.trading_pair ++ "\n"

/-- Split a character list at every newline, keeping empty segments —
the behaviour of the Python `str.split("\n")` used by the source. -/
def splitNlChars : List Char → List Char → List (List Char)
  | [], acc => [acc.reverse]
  | c :: cs, acc =>
    if c = '\n' then acc.reverse :: splitNlChars cs []
    else splitNlChars cs (c :: acc)

/-- `text.split("\n")` from the source. -/
def splitNl (s : String) : List String :=
  (splitNlChars s.data []).map String.mk

/-- `get_order_book` from the source: header plus the joined table, each
table line indented by four spaces. -/
def get_order_book (cfg : GobConfig) (snap : OrderBookSnapshot) : String :=
  let text_lines := (splitNl (tableToString (joinedRows cfg snap))).map
    (fun line => "    " ++ line)
  gobHeader cfg ++ String.intercalate "\n" text_lines

/-! ### Status report (`format_status`)

`format_status` returns `"Exchange connector(s) are not ready."` when
`self._ready` is false.  Otherwise it iterates over
`self._market_infos.values()` and builds a line from `self._asset` and
`market_info.market.get_balance(self._asset)`.  Neither attribute exists on
the instance: the constructor assigns `self._market_info` (no trailing `s`)
and never assigns `self._asset`, and (modelled from the spec: the base
classes `StrategyPyBase`/`StrategyBase` are outside the provided sources,
and the spec gives this core no such state — the collaborator owns balance
computation and this core "only concatenates the line") no inherited
attribute supplies them either.  So in Python the ready branch raises
`AttributeError` as soon as `self._market_infos` is read on a non-empty
strategy.  We model attribute access on the absent attributes as an
error. -/

/-- `format_status` from the source, with Python attribute errors made
explicit: the ready branch reads the never-assigned `self._market_infos`
(and `self._asset`) and raises `AttributeError`. -/
def format_status (s : GobState) : Except String String :=
  if !s.ready then
    .ok "Exchange connector(s) are not ready."
  else
    .error "AttributeError: _market_infos"

/-! ### Claims -/

/-- A tick sequence in which every task creation succeeds
(`safe_ensure_future` does not raise): input `i` supplies the observed
connector readiness and the handle that task creation returns. -/
def runTicksOk (s : GobState) (inputs : List (Bool × Nat)) :
    GobState × List TickEvent :=
  runTicks s (inputs.map (fun p => (p.1, Except.ok p.2)))

/-- C1: starting from the constructor state, over any sequence of ticks in
which the connector is observed ready on at least one tick (and task
creation succeeds when attempted), the refresh task is launched exactly
once: the trace contains exactly one launch event, and afterwards `_ready`
is true and the task handle is recorded; every tick after the first ready
one returns immediately. -/
theorem tick_launches_exactly_once (inputs : List (Bool × Nat))
    (hobs : inputs.any (fun p => p.1) = true) :
    ((runTicksOk initialState inputs).2).count .launched = 1 ∧
      (runTicksOk initialState inputs).1.ready = true ∧
      (runTicksOk initialState inputs).1.task.isSome = true := by
  induction inputs with
  | nil => simp at hobs
  | cons p rest ih =>
    obtain ⟨e, h⟩ := p
    cases e with
    | true =>
      have hstep : tick initialState true (.ok h) =
          (⟨true, some h⟩, [.notifyReady, .launched]) :=
        tick_launch_ok initialState rfl rfl h
      simp [runTicksOk, runTicks, hstep, runTicks_of_ready ⟨true, some h⟩ rfl,
        List.count_cons]
    | false =>
      have hobs' : rest.any (fun p => p.1) = true := by
        simpa using hobs
      have hih := ih hobs'
      simp only [runTicksOk, List.map_cons] at hih ⊢
      simp [runTicks, tick_not_ready initialState rfl, hih, List.count_cons]

/-- C1 witness: a concrete run with one not-ready tick then two ready
ticks. -/
theorem tick_launches_exactly_once_witness :
    (([(false, 0), (true, 1), (true, 2)] : List (Bool × Nat)).any
        (fun p => p.1) = true) ∧
      ((runTicksOk initialState [(false, 0), (true, 1), (true, 2)]).2).count
          .launched = 1 ∧
        (runTicksOk initialState [(false, 0), (true, 1), (true, 2)]).1.ready
            = true ∧
          (runTicksOk initialState
              [(false, 0), (true, 1), (true, 2)]).1.task.isSome = true :=
  ⟨by decide, tick_launches_exactly_once [(false, 0), (true, 1), (true, 2)]
    (by decide)⟩

/-- C2: from any not-ready strategy state, a sequence of ticks each observing
a not-ready connector leaves the state (ready flag and task handle)
unchanged, creates no task, and produces exactly one warning log per tick
and nothing else. -/
theorem tick_not_ready_no_launch (s : GobState) (hs : s.ready = false)
    (inputs : List (Bool × Except Unit Nat))
    (hnr : inputs.all (fun p => !p.1) = true) :
    runTicks s inputs = (s, List.replicate inputs.length .logWarning) := by
  induction inputs with
  | nil => rfl
  | cons p rest ih =>
    obtain ⟨e, l⟩ := p
    rw [List.all_cons, Bool.and_eq_true] at hnr
    obtain ⟨he, hrest⟩ := hnr
    have he' : e = false := by simpa using he
    subst he'
    simp [runTicks, tick_not_ready s hs, ih hrest, List.replicate_succ]

/-- C2 witness: two not-ready ticks from the constructor state (one with a
would-fail task creation, one with a would-succeed one) only log two
warnings. -/
theorem tick_not_ready_no_launch_witness :
    initialState.ready = false ∧
      (([(false, Except.error ()), (false, Except.ok 3)] :
          List (Bool × Except Unit Nat)).all (fun p => !p.1) = true) ∧
        runTicks initialState [(false, Except.error ()), (false, Except.ok 3)] =
          (initialState, [.logWarning, .logWarning]) :=
  ⟨rfl, by decide, tick_not_ready_no_launch initialState rfl
    [(false, Except.error ()), (false, Except.ok 3)] (by decide)⟩

/-- C3: when the configured trading pair is absent from the key set of the
connector order-book mapping, `show_order_book` logs the invalid-market
error and raises, and its trace contains no stop-live-update request, no
setting of the live-updates flag, and no paced display call. -/
theorem show_order_book_invalid_market (books : List String) (pair : String)
    (flags : List Bool) (hnm : pair ∉ books) :
    show_order_book books pair flags = ([.logInvalidMarket], .raised) ∧
      .stopLiveUpdate ∉ (show_order_book books pair flags).1 ∧
        .setLiveUpdatesTrue ∉ (show_order_book books pair flags).1 ∧
          .display ∉ (show_order_book books pair flags).1 := by
  simp [show_order_book, hnm]

/-- C3 witness: a concrete connector with only BTC-USDT, configured for
ETH-USDT. -/
theorem show_order_book_invalid_market_witness :
    ("ETH-USDT" ∉ ["BTC-USDT"]) ∧
      (show_order_book ["BTC-USDT"] "ETH-USDT" [true] =
          ([.logInvalidMarket], .raised) ∧
        .stopLiveUpdate ∉ (show_order_book ["BTC-USDT"] "ETH-USDT" [true]).1 ∧
          .setLiveUpdatesTrue ∉
              (show_order_book ["BTC-USDT"] "ETH-USDT" [true]).1 ∧
            .display ∉ (show_order_book ["BTC-USDT"] "ETH-USDT" [true]).1) :=
  ⟨by decide, show_order_book_invalid_market ["BTC-USDT"] "ETH-USDT" [true]
    (by decide)⟩

/-- C4: on a tick that observes the connector ready from the not-launched
state, if task creation raises then the resulting state has `_ready = false`
and a null task handle (as if the launch had not been attempted), the
failure surfaces only as an error log; and a later tick whose task creation
succeeds performs the launch. -/
theorem tick_launch_failure_rolls_back (s : GobState) (hs : s.ready = false)
    (ht : s.task = none) :
    tick s true (.error ()) = (⟨false, none⟩, [.notifyReady, .logError]) ∧
      ∀ h : Nat, tick (tick s true (.error ())).1 true (.ok h) =
        (⟨true, some h⟩, [.notifyReady, .launched]) := by
  constructor
  · simp [tick, hs, ht]
  · intro h
    simp [tick, hs, ht]

/-- C4 witness: a failed launch from the constructor state, then a retried
successful one. -/
theorem tick_launch_failure_rolls_back_witness :
    initialState.ready = false ∧ initialState.task = none ∧
      tick initialState true (.error ()) =
          (⟨false, none⟩, [.notifyReady, .logError]) ∧
        tick (tick initialState true (.error ())).1 true (.ok 7) =
          (⟨true, some 7⟩, [.notifyReady, .launched]) :=
  ⟨rfl, rfl, (tick_launch_failure_rolls_back initialState rfl rfl).1,
    (tick_launch_failure_rolls_back initialState rfl rfl).2 7⟩

/-- C5: with a valid trading pair, if the live-updates flag is observed true
at the first `k` top-of-loop checks and false at the next one (the external
clear having happened during render cycle `k - 1` at the earliest, after
that cycle had already passed its check), the loop performs exactly `k`
paced display calls — so at most one render cycle completes after the
clearing — then emits the stopped notice and returns normally, not
raising. -/
theorem show_order_book_graceful_stop (books : List String) (pair : String)
    (k : Nat) (rest : List Bool) (hm : pair ∈ books) :
    show_order_book books pair (List.replicate k true ++ false :: rest) =
      (.stopLiveUpdate :: .setLiveUpdatesTrue ::
        (List.replicate k .display ++ [.notifyStopped]), .returned) := by
  simp [show_order_book, hm, renderLoop_replicate]

/-- C5 witness: a valid pair with two true observations then a false one. -/
theorem show_order_book_graceful_stop_witness :
    ("ETH-USDT" ∈ ["ETH-USDT"]) ∧
      show_order_book ["ETH-USDT"] "ETH-USDT"
          (List.replicate 2 true ++ false :: []) =
        (.stopLiveUpdate :: .setLiveUpdatesTrue ::
          (List.replicate 2 .display ++ [.notifyStopped]), .returned) :=
  ⟨by decide, show_order_book_graceful_stop ["ETH-USDT"] "ETH-USDT" 2 []
    (by decide)⟩

/-- C6: on the snapshot with bids `[(100,1),(99,2),(98,3)]` and asks
`[(101,1),(102,2),(103,3)]` with `lines = 2`, the joined table built by
`get_order_book` has exactly the two rows `(100,1,101,1)` and `(99,2,102,2)`
(the third level of each side is dropped), and the rendered text is the
header plus exactly those two data rows. -/
theorem get_order_book_row_projection :
    joinedRows ⟨"binance", "ETH-USDT", 2⟩
        ⟨[⟨100, 1⟩, ⟨99, 2⟩, ⟨98, 3⟩], [⟨101, 1⟩, ⟨102, 2⟩, ⟨103, 3⟩]⟩ =
      [(some ⟨100, 1⟩, some ⟨101, 1⟩), (some ⟨99, 2⟩, some ⟨102, 2⟩)] ∧
      get_order_book ⟨"binance", "ETH-USDT", 2⟩
          ⟨[⟨100, 1⟩, ⟨99, 2⟩, ⟨98, 3⟩], [⟨101, 1⟩, ⟨102, 2⟩, ⟨103, 3⟩]⟩ =
        "  market: binance ETH-USDT\n" ++
          "    bid_price bid_volume ask_price ask_volume\n" ++
          "    100 1 101 1\n    99 2 102 2" := by
  constructor
  · rfl
  · rfl

/-- C7: `format_status` leaves the state untouched (it is a pure function of
the state in this embedding) and returns the not-ready message when
`_ready` is false; but when `_ready` is true the source raises
`AttributeError` (it reads `self._market_infos` and `self._asset`, neither
of which is ever assigned — the constructor assigns `self._market_info`),
contradicting the claim that it returns balance lines without raising. -/
theorem format_status_ready_raises :
    format_status ⟨false, none⟩ = .ok "Exchange connector(s) are not ready." ∧
      format_status ⟨true, some 0⟩ = .error "AttributeError: _market_infos" :=
  ⟨rfl, rfl⟩

/-- C8: `stop` never raises (it is total in this embedding); after any call
the task handle is null; a second call is a no-op, so calling it twice
leaves the same state as calling it once; with a registered handle it
cancels exactly that task and clears the handle, and with no handle it
changes nothing. -/
theorem stop_idempotent (s : GobState) (r : Bool) (h : Nat) :
    (stop s).1.task = none ∧
      stop (stop s).1 = ((stop s).1, []) ∧
        stop ⟨r, some h⟩ = (⟨r, none⟩, [.cancel h]) ∧
          stop ⟨r, none⟩ = (⟨r, none⟩, []) := by
  refine ⟨?_, ?_, rfl, rfl⟩ <;> cases ht : s.task <;> simp [stop, ht]

/-- C9: for every configuration and every snapshot, the text returned by
`get_order_book` begins with the header line, which contains the connector
name and the configured trading pair verbatim, before any data rows. -/
theorem get_order_book_header (cfg : GobConfig) (snap : OrderBookSnapshot) :
    ∃ rest, get_order_book cfg snap =
      ("  market: " ++ cfg.exchange_name ++ " " ++ cfg.trading_pair ++ "\n")
        ++ rest :=
  ⟨_, rfl⟩

/-- C10: `stop` never resets the ready flag: from any ready state, the state
after `stop` is still ready, and an arbitrary concrete subsequent tick
sequence returns immediately each time with no effect — the refresh loop is
never relaunched. -/
theorem stop_keeps_ready (s : GobState) (hs : s.ready = true) :
    (stop s).1.ready = true ∧
      ∀ inputs, runTicks (stop s).1 inputs = ((stop s).1, []) := by
  have h1 : (stop s).1.ready = true := by
    cases ht : s.task <;> simp [stop, ht, hs]
  exact ⟨h1, runTicks_of_ready (stop s).1 h1⟩

/-- C10 witness: stopping a ready strategy with a registered task, then
ticking with a ready connector, launches nothing. -/
theorem stop_keeps_ready_witness :
    ((⟨true, some 5⟩ : GobState).ready = true) ∧
      (stop ⟨true, some 5⟩).1.ready = true ∧
        runTicks (stop ⟨true, some 5⟩).1
            [(true, Except.ok 7), (false, Except.error ())] =
          ((stop ⟨true, some 5⟩).1, []) :=
  ⟨rfl, (stop_keeps_ready ⟨true, some 5⟩ rfl).1,
    (stop_keeps_ready ⟨true, some 5⟩ rfl).2
      [(true, Except.ok 7), (false, Except.error ())]⟩

end GetOrderBook
